import Mathlib

/-!
# Verification of the ai-content-publisher job pipeline

Shallow embedding of the repository's coordination layer:
route handlers (`src/backend/src/routes/content.ts`, `routes/publish.ts`),
the LLM service (`src/backend/src/services/llm.service.ts`), the WordPress
service calls made by the workers (`services/wordpress.service.ts`), and the
two BullMQ worker task functions (`src/backend/src/jobs/queue.ts`).

Remote calls (OpenAI, WordPress HTTP, `JSON.parse`) are modelled as oracle
parameters: each theorem quantifies over every possible outcome of the
external world, and concrete instantiations are supplied for witnesses and
counterexamples.  JSON numbers are modelled as integers (no claim depends on
fractional values).
-/

namespace AICP

/-- A parsed JSON value, as produced by the JavaScript `JSON.parse`.
Object fields are kept in order as an association list. -/
inductive Json where
  | null : Json
  | bool (b : Bool) : Json
  | num (n : Int) : Json
  | str (s : String) : Json
  | arr (elems : List Json) : Json
  | obj (fields : List (String × Json)) : Json

/-- Association-list lookup on JSON object fields (first match wins,
like JavaScript property access on `JSON.parse` output). -/
def lookupField : List (String × Json) → String → Option Json
  | [], _ => none
  | (k, v) :: rest, key => if k = key then some v else lookupField rest key

/-- JavaScript property access `j.k` on a parsed JSON value: `none` models
`undefined` (missing field, or access on a non-object). -/
def getField (j : Json) (k : String) : Option Json :=
  match j with
  | .obj fields => lookupField fields k
  | _ => none

/-- JavaScript truthiness of a JSON value. -/
def truthyJson : Json → Bool
  | .null => false
  | .bool b => b
  | .num n => n != 0
  | .str s => s != ""
  | .arr _ => true
  | .obj _ => true

/-- The JavaScript `x || d` idiom applied to a possibly-`undefined`
JSON value (`none` = `undefined`). -/
def jsOrJson (v : Option Json) (d : Json) : Json :=
  match v with
  | none => d
  | some j => if truthyJson j then j else d

/-- The JavaScript `s || d` idiom for a possibly-`null` string
(`none` models `null`/`undefined`; `""` is falsy). -/
def strOrDefault (c : Option String) (d : String) : String :=
  match c with
  | none => d
  | some s => if s = "" then d else s

/-- The JavaScript `s || d` idiom for an optional string field of a request
body, returning the string actually used. -/
def jsOrStr (o : Option String) (d : String) : String :=
  match o with
  | none => d
  | some s => if s = "" then d else s

/-- Truthiness of an optional string field (`none` = absent = falsy,
`""` falsy, any other string truthy). -/
def truthyOpt (o : Option String) : Bool :=
  match o with
  | none => false
  | some s => s != ""

/-- A dynamically-typed JavaScript value as it appears in an Express
request body (`req.body` after JSON parsing, plus `undefined` for absent
fields and `NaN` as produced by `parseInt`). -/
inductive JsVal where
  | undef : JsVal
  | null : JsVal
  | bool (b : Bool) : JsVal
  | num (n : Int) : JsVal
  | nan : JsVal
  | str (s : String) : JsVal
  | arr (elems : List JsVal) : JsVal
  | obj (fields : List (String × JsVal)) : JsVal

/-- JavaScript truthiness of a request-body value. -/
def truthy : JsVal → Bool
  | .undef => false
  | .null => false
  | .bool b => b
  | .num n => n != 0
  | .nan => false
  | .str s => s != ""
  | .arr _ => true
  | .obj _ => true

mutual

/-- JavaScript `String(v)` coercion (integer numbers only; arrays join their
elements with commas, objects print as `[object Object]`). -/
def jsToString : JsVal → String
  | .undef => "undefined"
  | .null => "null"
  | .bool true => "true"
  | .bool false => "false"
  | .num n => toString n
  | .nan => "NaN"
  | .str s => s
  | .arr l => String.intercalate "," (jsToStringList l)
  | .obj _ => "[object Object]"

/-- Stringification of array elements for `jsToString`. -/
def jsToStringList : List JsVal → List String
  | [] => []
  | v :: vs => jsToString v :: jsToStringList vs

end

/-- Numeric value of a decimal digit character. -/
def digitNum (c : Char) : Nat := c.toNat - '0'.toNat

/-- Accumulate the longest leading run of decimal digits
(the way `parseInt` reads digits and ignores the rest). -/
def digitsAcc : List Char → Nat → Nat
  | [], acc => acc
  | c :: cs, acc => if c.isDigit then digitsAcc cs (acc * 10 + digitNum c) else acc

/-- Parse an optionally-signed decimal integer from the head of a character
list; `none` when no digit can be read (the `NaN` case of `parseInt`).
Hexadecimal prefixes are not modelled (no call site produces them). -/
def parseIntFrom : List Char → Option Int
  | [] => none
  | c :: cs =>
    if c = '-' then
      match cs with
      | d :: _ => if d.isDigit then some (-(Int.ofNat (digitsAcc cs 0))) else none
      | [] => none
    else if c = '+' then
      match cs with
      | d :: _ => if d.isDigit then some (Int.ofNat (digitsAcc cs 0)) else none
      | [] => none
    else if c.isDigit then some (Int.ofNat (digitsAcc (c :: cs) 0))
    else none

/-- The JavaScript `parseInt(v)` builtin: coerce to string, skip leading
whitespace, read an optionally-signed digit run; `NaN` when none exists. -/
def jsParseInt (v : JsVal) : JsVal :=
  match v with
  | .num n => .num n
  | _ =>
    match parseIntFrom ((jsToString v).toList.dropWhile Char.isWhitespace) with
    | some n => .num n
    | none => .nan

/-- Does `s` contain `pat` as a contiguous substring? (used to state
"the failure reason includes the post id"). -/
def leadsWith : List Char → List Char → Bool
  | _, [] => true
  | [], _ :: _ => false
  | c :: cs, p :: ps => c = p && leadsWith cs ps

/-- Substring containment on strings. -/
def strContainsAux : List Char → List Char → Bool
  | l, pat =>
    match l with
    | [] => pat.isEmpty
    | _ :: rest => leadsWith l pat || strContainsAux rest pat

/-- `strContains s pat` is true iff `pat` occurs contiguously inside `s`. -/
def strContains (s pat : String) : Bool :=
  strContainsAux s.toList pat.toList

/-! ## LLM service (`src/backend/src/services/llm.service.ts`) -/

/-- The argument record of `LLMService.generateBlogPost`
(`wordCount` is whatever the route enqueued: an integer, or `none` for
the `NaN` that `parseInt` yields on non-numeric input; it only flows
into the prompt text). -/
structure GenParams where
  topic : String
  keywords : List String
  wordCount : Option Int

/-- Oracle for the external world of the generation pipeline: the three
OpenAI chat-completions calls (each returning the possibly-`null`
`message.content` string, or a remote error) and the JavaScript
`JSON.parse` builtin (`none` = `SyntaxError`). The draft / SEO / FAQ
calls are keyed by the argument their service method receives. -/
structure LLMEnv where
  draftResp : GenParams → Except String (Option String)
  seoResp : String → Except String (Option String)
  faqResp : String → Except String (Option String)
  parse : String → Option Json

/-- The error a JavaScript `JSON.parse` call throws on invalid input. -/
def jsonParseFailMsg : String := "SyntaxError: Unexpected token in JSON"

/-- `LLMService.generateBlogPost`: one remote call; the returned draft is
`response.choices[0].message.content || ''`. -/
def generateBlogPost (env : LLMEnv) (params : GenParams) : Except String String :=
  match env.draftResp params with
  | .error e => .error e
  | .ok c => .ok (strOrDefault c "")

/-- `LLMService.generateSEOMetadata`: one remote call, then
`JSON.parse(response.choices[0].message.content || '\x7b\x7d')` —
the parsed value is returned as-is, with no shape validation. -/
def generateSEOMetadata (env : LLMEnv) (content : String) : Except String Json :=
  match env.seoResp content with
  | .error e => .error e
  | .ok c =>
    match env.parse (strOrDefault c "\x7b\x7d") with
    | some j => .ok j
    | none => .error jsonParseFailMsg

/-- The default text `'\x7b"faqs": []\x7d'` substituted for a falsy FAQ
response before parsing. -/
def faqDefaultText : String := "\x7b\"faqs\": []\x7d"

/-- `LLMService.generateFAQSchema`: one remote call, then
`JSON.parse(content || '\x7b"faqs": []\x7d')` followed by
`result.faqs || []`. -/
def generateFAQSchema (env : LLMEnv) (content : String) : Except String Json :=
  match env.faqResp content with
  | .error e => .error e
  | .ok c =>
    match env.parse (strOrDefault c faqDefaultText) with
    | some j => .ok (jsOrJson (getField j "faqs") (Json.arr []))
    | none => .error jsonParseFailMsg

/-! ## Content-generation worker (`src/backend/src/jobs/queue.ts`, `startContentWorker`) -/

/-- The fields the content worker destructures from `job.data`. -/
structure GenJobData where
  contentId : String
  topic : String
  keywords : List String
  wordCount : Option Int

/-- The object literal returned by the content worker's task function. -/
structure GenResult where
  contentId : String
  content : String
  seo : Json
  faqs : Json
  topic : String

/-- Repackage the job payload into `generateBlogPost`'s argument record. -/
def genParamsOf (p : GenJobData) : GenParams :=
  { topic := p.topic, keywords := p.keywords, wordCount := p.wordCount }

/-- The content worker's task function: draft, then SEO metadata, then FAQ
schema, each `await`ed in sequence; a thrown error at any step propagates
and the job produces no return value. -/
def contentTask (env : LLMEnv) (p : GenJobData) : Except String GenResult :=
  match generateBlogPost env (genParamsOf p) with
  | .error e => .error e
  | .ok content =>
    match generateSEOMetadata env content with
    | .error e => .error e
    | .ok seo =>
      match generateFAQSchema env content with
      | .error e => .error e
      | .ok faqs =>
        .ok { contentId := p.contentId, content := content, seo := seo,
              faqs := faqs, topic := p.topic }

/-! ## WordPress service and publishing worker -/

/-- The used fields of the WordPress create-post response
(`post.id`, `post.link`). -/
structure WpPost where
  id : Nat
  link : String

/-- The request body of `WordPressService.createPost` as the publish worker
builds it (`categories`/`tags` are never passed by the worker). -/
structure CreateArgs where
  title : String
  content : String
  excerpt : String
  status : String

/-- One outbound WordPress HTTP call made by the publish worker. -/
inductive WpCall where
  | create (args : CreateArgs) : WpCall
  | schedule (postId : Nat) (scheduleDate : String) : WpCall

/-- Oracle for the WordPress REST API: the outcome of `createPost` and of
`schedulePost` (whose response body the worker discards). The `Date`
normalisation inside `schedulePost` is opaque; calls are keyed by the raw
`scheduleDate` string the worker passes. -/
structure WpEnv where
  createPost : CreateArgs → Except String WpPost
  schedulePost : Nat → String → Except String Json

/-- The `seo` object the publish worker reads `title`/`description` from. -/
structure SeoIn where
  title : String
  description : String

/-- The fields the publish worker destructures from `job.data`. -/
structure PublishJobData where
  content : String
  seo : SeoIn
  status : Option String
  scheduleDate : Option String

/-- The object literal returned by the publish worker's task function. -/
structure PublishOutcome where
  wordpressId : Nat
  wordpressUrl : String
  publishedAt : String

/-- The create-post request the worker sends:
`\x7btitle: seo.title, content, excerpt: seo.description, status: status || 'draft'\x7d`. -/
def createArgsOf (p : PublishJobData) : CreateArgs :=
  { title := p.seo.title, content := p.content, excerpt := p.seo.description,
    status := jsOrStr p.status "draft" }

/-- The publish worker's task function (`startPublishWorker`): create the
post, then — only when `scheduleDate` is truthy — a second round-trip to
schedule it; returns the outcome together with the trace of outbound
WordPress calls.  `now` is the ISO timestamp `new Date().toISOString()`. -/
def publishTask (env : WpEnv) (now : String) (p : PublishJobData) :
    Except String PublishOutcome × List WpCall :=
  let args := createArgsOf p
  match env.createPost args with
  | .error e => (.error e, [WpCall.create args])
  | .ok post =>
    if truthyOpt p.scheduleDate then
      match env.schedulePost post.id (p.scheduleDate.getD "") with
      | .error e =>
        (.error e, [WpCall.create args, WpCall.schedule post.id (p.scheduleDate.getD "")])
      | .ok _ =>
        (.ok { wordpressId := post.id, wordpressUrl := post.link, publishedAt := now },
         [WpCall.create args, WpCall.schedule post.id (p.scheduleDate.getD "")])
    else
      (.ok { wordpressId := post.id, wordpressUrl := post.link, publishedAt := now },
       [WpCall.create args])

/-- How the worker pool finalizes a job from its task function's outcome
(BullMQ records a thrown error as `failedReason`; with the default single
attempt the job ends `failed`). -/
inductive JobFinal (α : Type) where
  | completed (result : α) : JobFinal α
  | failed (failureReason : String) : JobFinal α

/-- Finalize a task outcome into a terminal job state. -/
def finalize {α : Type} (r : Except String α) : JobFinal α :=
  match r with
  | .ok v => .completed v
  | .error e => .failed e

/-! ## Publish route (`routes/publish.ts`, `router.post('/')`) -/

/-- The fields the publish route destructures from `req.body`
(`none` = absent/`undefined`; `seo` present means any object). -/
structure PublishBody where
  content : Option String
  seo : Option SeoIn
  status : Option String
  scheduleDate : Option String

/-- Outcome of the publish route handler: a 400 response, or a job
enqueued on the publishing queue with the given payload. -/
inductive PublishRouteResult where
  | badRequest (msg : String) : PublishRouteResult
  | enqueued (payload : PublishJobData) : PublishRouteResult

/-- The publish route handler: rejects with 400 only when `content` or
`seo` is falsy, then enqueues
`\x7bcontent, seo, status: status || 'draft', scheduleDate\x7d` verbatim. -/
def publishRoute (b : PublishBody) : PublishRouteResult :=
  match b.content, b.seo with
  | some c, some o =>
    if c = "" then .badRequest "Missing required fields: content, seo"
    else .enqueued { content := c, seo := o,
                     status := some (jsOrStr b.status "draft"),
                     scheduleDate := b.scheduleDate }
  | _, _ => .badRequest "Missing required fields: content, seo"

/-! ## Content route (`routes/content.ts`, `router.post('/generate')`) -/

/-- The fields the generate route destructures from `req.body`
(kept dynamically typed: the route performs no type checks). -/
structure GenBody where
  topic : JsVal
  keywords : JsVal
  wordCount : JsVal

/-- The payload the generate route enqueues on the content queue. -/
structure GenQueuePayload where
  contentId : String
  topic : JsVal
  keywords : JsVal
  wordCount : JsVal

/-- Outcome of the generate route handler. -/
inductive GenRouteResult where
  | badRequest (msg : String) : GenRouteResult
  | enqueued (payload : GenQueuePayload) : GenRouteResult

/-- The generate route handler: rejects with 400 when any of `topic`,
`keywords`, `wordCount` is falsy, else enqueues
`\x7bcontentId, topic, keywords, wordCount: parseInt(wordCount)\x7d`.
`contentId` is the `uuidv4()` value, passed in as a parameter. -/
def generateRoute (contentId : String) (b : GenBody) : GenRouteResult :=
  if truthy b.topic && truthy b.keywords && truthy b.wordCount then
    .enqueued { contentId := contentId, topic := b.topic, keywords := b.keywords,
                wordCount := jsParseInt b.wordCount }
  else
    .badRequest "Missing required fields: topic, keywords, wordCount"

/-! ## Job query facade (`router.get('/job/:jobId')` in both route files) -/

/-- The BullMQ job fields the two query handlers read
(`returnvalue`, `failedReason` and `progress` serialised as JSON values;
`Json.null` stands for an unset field as rendered in the response). -/
structure JobRec where
  id : String
  state : String
  progress : Json
  returnvalue : Json
  failedReason : Json

/-- Outcome of a job-query handler: 404, or a 200 JSON object given as its
ordered field list. -/
inductive QueryResult where
  | notFound : QueryResult
  | found (fields : List (String × Json)) : QueryResult

/-- The publishing queue's job-query handler: 404 when `getJob` finds
nothing, else `res.json(\x7bjobId, state, result, failedReason\x7d)` —
note: no `progress` field. -/
def publishJobQuery (store : String → Option JobRec) (jobId : String) : QueryResult :=
  match store jobId with
  | none => .notFound
  | some job =>
    .found [("jobId", Json.str job.id), ("state", Json.str job.state),
            ("result", job.returnvalue), ("failedReason", job.failedReason)]

/-- The content queue's job-query handler: 404 when `getJob` finds nothing,
else `res.json(\x7bjobId, state, progress, result, failedReason\x7d)`. -/
def contentJobQuery (store : String → Option JobRec) (jobId : String) : QueryResult :=
  match store jobId with
  | none => .notFound
  | some job =>
    .found [("jobId", Json.str job.id), ("state", Json.str job.state),
            ("progress", job.progress), ("result", job.returnvalue),
            ("failedReason", job.failedReason)]

/-! ## Rate-limited worker pool

Modelled from the spec: the worker-pool scheduling itself lives in the
BullMQ library, not in `src/`; `src/backend/src/jobs/queue.ts` only
configures it (`concurrency: 2` with `limiter: \x7bmax: 10, duration:
60000\x7d` for content generation, `concurrency: 1` for publishing).  The
model follows §4.2 of the spec: a pool admits a waiting job only while
fewer than `concurrency` jobs are active and, when a limiter is set, while
fewer than `max` task starts fall inside the trailing window of length
`duration`; active jobs finish as completed, failed, or return to waiting
for a retry. -/

/-- Static configuration of one worker pool: the concurrency ceiling and an
optional sliding-window rate limit `(max, duration)`. -/
structure PoolCfg where
  concurrency : Nat
  limiter : Option (Nat × Nat)

/-- Abstract pool state: the current clock, how many jobs sit in each
state, and the start times of every task execution begun so far. -/
structure PoolState where
  now : Nat
  waiting : Nat
  active : Nat
  completed : Nat
  failed : Nat
  starts : List Nat

/-- Number of recorded task starts inside the window `(t - D, t]`
(written `u ≤ t ∧ t < u + D` to avoid truncated subtraction). -/
def countWindow (starts : List Nat) (t D : Nat) : Nat :=
  (starts.filter (fun u => decide (u ≤ t) && decide (t < u + D))).length

/-- The rate-limit admission guard: trivially true for a pool without a
limiter, else the current window must have budget left. -/
def windowOk (cfg : PoolCfg) (s : PoolState) : Prop :=
  match cfg.limiter with
  | none => True
  | some (max, D) => countWindow s.starts s.now D < max

/-- One scheduling event of a worker pool. -/
inductive PoolStep (cfg : PoolCfg) : PoolState → PoolState → Prop where
  | enqueue (s : PoolState) :
      PoolStep cfg s { s with waiting := s.waiting + 1 }
  | tick (s : PoolState) (d : Nat) :
      PoolStep cfg s { s with now := s.now + d }
  | claim (s : PoolState) (h1 : 0 < s.waiting) (h2 : s.active < cfg.concurrency)
      (h3 : windowOk cfg s) :
      PoolStep cfg s { s with waiting := s.waiting - 1, active := s.active + 1,
                              starts := s.now :: s.starts }
  | complete (s : PoolState) (h : 0 < s.active) :
      PoolStep cfg s { s with active := s.active - 1, completed := s.completed + 1 }
  | fail (s : PoolState) (h : 0 < s.active) :
      PoolStep cfg s { s with active := s.active - 1, failed := s.failed + 1 }
  | retry (s : PoolState) (h : 0 < s.active) :
      PoolStep cfg s { s with active := s.active - 1, waiting := s.waiting + 1 }

/-- The empty pool at clock zero. -/
def initPool : PoolState :=
  { now := 0, waiting := 0, active := 0, completed := 0, failed := 0, starts := [] }

/-- States a pool can reach from the empty pool. -/
inductive PoolReachable (cfg : PoolCfg) : PoolState → Prop where
  | init : PoolReachable cfg initPool
  | step {s s' : PoolState} : PoolReachable cfg s → PoolStep cfg s s' →
      PoolReachable cfg s'

/-- The content-generation pool configuration from
`src/backend/src/jobs/queue.ts` (`concurrency: 2`,
`limiter: \x7bmax: 10, duration: 60000\x7d`). -/
def contentPoolCfg : PoolCfg := { concurrency := 2, limiter := some (10, 60000) }

/-- The publishing pool configuration from `src/backend/src/jobs/queue.ts`
(`concurrency: 1`, no limiter). -/
def publishPoolCfg : PoolCfg := { concurrency := 1, limiter := none }

/-! ## Claim statements and concrete oracle instantiations

The claim propositions below transcribe the spec's sentences over the
embedded code; the concrete environments instantiate the remote-call
oracles for witnesses and counterexamples. -/

/-- A raw LLM response text standing for a well-formed SEO JSON document. -/
def sampleSeoText : String := "seo-json"

/-- The JSON value the sample SEO text parses to. -/
def sampleSeoJson : Json :=
  .obj [("title", .str "T"), ("description", .str "D"), ("tags", .arr [.str "t1"])]

/-- A raw LLM response text standing for a well-formed FAQ JSON document. -/
def sampleFaqText : String := "faq-json"

/-- One FAQ entry of the sample FAQ document. -/
def sampleFaqEntry : Json := .obj [("question", .str "Q"), ("answer", .str "A")]

/-- The JSON value the sample FAQ text parses to. -/
def sampleFaqJson : Json := .obj [("faqs", .arr [sampleFaqEntry])]

/-- A concrete `JSON.parse` instantiation: parses the empty-object default,
the FAQ default and the two sample documents; everything else is a
`SyntaxError`. -/
def parseStub : String → Option Json := fun s =>
  if s = "\x7b\x7d" then some (.obj [])
  else if s = faqDefaultText then some (.obj [("faqs", .arr [])])
  else if s = sampleSeoText then some sampleSeoJson
  else if s = sampleFaqText then some sampleFaqJson
  else none

/-- Oracle on which all three LLM calls succeed with well-formed documents. -/
def envGood : LLMEnv :=
  { draftResp := fun _ => .ok (some "<p>d</p>"),
    seoResp := fun _ => .ok (some sampleSeoText),
    faqResp := fun _ => .ok (some sampleFaqText),
    parse := parseStub }

/-- Oracle on which the SEO and FAQ calls return `null` message content, so
the code falls back to its default texts. -/
def envDefaulting : LLMEnv :=
  { draftResp := fun _ => .ok (some "<p>x</p>"),
    seoResp := fun _ => .ok none,
    faqResp := fun _ => .ok none,
    parse := parseStub }

/-- Oracle on which the SEO and FAQ calls return text that is not valid
JSON. -/
def envBadJson : LLMEnv :=
  { draftResp := fun _ => .ok (some "<p>x</p>"),
    seoResp := fun _ => .ok (some "not json"),
    faqResp := fun _ => .ok (some "not json"),
    parse := parseStub }

/-- Oracle on which the draft call itself fails remotely. -/
def envDraftFail : LLMEnv :=
  { draftResp := fun _ => .error "rate limited",
    seoResp := fun _ => .ok (some sampleSeoText),
    faqResp := fun _ => .ok (some sampleFaqText),
    parse := parseStub }

/-- A concrete generation job payload. -/
def pGen : GenJobData :=
  { contentId := "c1", topic := "AI in Healthcare",
    keywords := ["machine learning"], wordCount := some 1500 }

/-- The result `contentTask envGood pGen` produces. -/
def genResultGood : GenResult :=
  { contentId := "c1", content := "<p>d</p>", seo := sampleSeoJson,
    faqs := Json.arr [sampleFaqEntry], topic := "AI in Healthcare" }

/-- Does a JSON value have the `\x7btitle, description, tags\x7d` shape the
SEO step's declared contract expects (string title and description, array
of strings as tags)? -/
def seoShapeB (j : Json) : Bool :=
  match getField j "title", getField j "description", getField j "tags" with
  | some (.str _), some (.str _), some (.arr l) =>
    l.all (fun t => match t with | .str _ => true | _ => false)
  | _, _, _ => false

/-- Does `seo.tags` exist and hold a non-empty array? -/
def seoTagsNonemptyB (j : Json) : Bool :=
  match getField j "tags" with
  | some (.arr l) => !l.isEmpty
  | _ => false

/-- Does one FAQ entry have non-empty string `question` and `answer`? -/
def faqEntryOkB (e : Json) : Bool :=
  match getField e "question", getField e "answer" with
  | some (.str q), some (.str a) => (q != "") && (a != "")
  | _, _ => false

/-- Is the FAQ result an array all of whose entries are well-formed pairs? -/
def faqsShapeOkB (j : Json) : Bool :=
  match j with
  | .arr l => l.all faqEntryOkB
  | _ => false

/-- Claim C2 as stated: whenever the SEO step succeeds, its value has the
expected `\x7btitle, description, tags\x7d` shape (equivalently: a response
not parseable as that shape fails the step). -/
def seoStrictParseClaim : Prop :=
  ∀ (env : LLMEnv) (content : String) (j : Json),
    generateSEOMetadata env content = .ok j → seoShapeB j = true

/-- Claim C4 as stated: every completed generation job's result has a
non-empty `seo.tags` and well-formed non-empty FAQ pairs. -/
def generationResultClaim : Prop :=
  ∀ (env : LLMEnv) (p : GenJobData) (r : GenResult),
    contentTask env p = .ok r →
    seoTagsNonemptyB r.seo = true ∧ faqsShapeOkB r.faqs = true

/-- The WordPress post the sample create call returns. -/
def postFortyTwo : WpPost := { id := 42, link := "https://blog.example/?p=42" }

/-- WordPress oracle: create succeeds, scheduling fails with a bare HTTP
error (the message an axios rejection carries). -/
def envSchedFail : WpEnv :=
  { createPost := fun _ => .ok postFortyTwo,
    schedulePost := fun _ _ => .error "Request failed with status code 500" }

/-- WordPress oracle on which both calls succeed. -/
def envCreateOk : WpEnv :=
  { createPost := fun _ => .ok postFortyTwo,
    schedulePost := fun _ _ => .ok Json.null }

/-- A concrete publish payload carrying a schedule date. -/
def pSched : PublishJobData :=
  { content := "<p>body</p>", seo := { title := "T", description := "D" },
    status := some "publish", scheduleDate := some "2024-12-25T10:00:00Z" }

/-- A concrete publish payload with no schedule date. -/
def pNoSched : PublishJobData :=
  { content := "<p>body</p>", seo := { title := "T", description := "D" },
    status := some "publish", scheduleDate := none }

/-- Claim C1 as stated: when create succeeds and scheduling fails, the job
fails with the created post's id embedded in the failure reason. -/
def scheduleFailureClaim : Prop :=
  ∀ (env : WpEnv) (now : String) (p : PublishJobData) (post : WpPost) (e : String),
    truthyOpt p.scheduleDate = true →
    env.createPost (createArgsOf p) = .ok post →
    env.schedulePost post.id (p.scheduleDate.getD "") = .error e →
    ∃ eMsg, (publishTask env now p).1 = .error eMsg ∧
      strContains eMsg (toString post.id) = true

/-- A publish request body whose `status` is neither `draft` nor
`publish`. -/
def pubBodyBanana : PublishBody :=
  { content := some "<p>b</p>", seo := some { title := "T", description := "D" },
    status := some "banana", scheduleDate := none }

/-- Claim C3 as stated: a submission whose `status` is neither literal is
rejected by validation before any job is enqueued. -/
def statusValidationClaim : Prop :=
  ∀ (b : PublishBody) (s : String),
    b.status = some s → s ≠ "draft" → s ≠ "publish" →
    ∃ msg, publishRoute b = .badRequest msg

/-- A concrete stored job record. -/
def jobRecOne : JobRec :=
  { id := "j1", state := "completed", progress := Json.num 100,
    returnvalue := Json.str "r", failedReason := Json.null }

/-- A store holding exactly the job `j1`. -/
def storeOne : String → Option JobRec := fun j =>
  if j = "j1" then some jobRecOne else none

/-- The field list of the stable query shape the spec declares
(with `progress`). -/
def stableShape : List String :=
  ["jobId", "state", "progress", "result", "failedReason"]

/-- Claim C7 as stated: both queues' job queries 404 exactly on unknown
ids and otherwise answer with the stable five-field shape. -/
def queryShapeClaim : Prop :=
  ∀ (store : String → Option JobRec) (jobId : String),
    (contentJobQuery store jobId = .notFound ↔ store jobId = none) ∧
    (publishJobQuery store jobId = .notFound ↔ store jobId = none) ∧
    (∀ fields, contentJobQuery store jobId = .found fields →
        fields.map Prod.fst = stableShape) ∧
    (∀ fields, publishJobQuery store jobId = .found fields →
        fields.map Prod.fst = stableShape)

/-- One pool step never pushes `active` past the concurrency ceiling. -/
theorem poolStep_active {cfg : PoolCfg} {s s' : PoolState} (hstep : PoolStep cfg s s')
    (ih : s.active ≤ cfg.concurrency) : s'.active ≤ cfg.concurrency := by
  cases hstep with
  | enqueue => simpa using ih
  | tick d => simpa using ih
  | claim h1 h2 h3 => simpa using h2
  | complete h => simp only; omega
  | fail h => simp only; omega
  | retry h => simp only; omega

/-- In every reachable pool state, at most `concurrency` jobs are active. -/
theorem poolActive_le {cfg : PoolCfg} {s : PoolState} (h : PoolReachable cfg s) :
    s.active ≤ cfg.concurrency := by
  induction h with
  | init => simp [initPool]
  | step hr hstep ih => exact poolStep_active hstep ih

/-- One pool step keeps all recorded start times at or before the clock. -/
theorem poolStep_starts {cfg : PoolCfg} {s s' : PoolState} (hstep : PoolStep cfg s s')
    (ih : ∀ u ∈ s.starts, u ≤ s.now) : ∀ u ∈ s'.starts, u ≤ s'.now := by
  cases hstep with
  | enqueue => simpa using ih
  | tick d =>
    intro u hu
    simp only at hu ⊢
    exact le_trans (ih u hu) (Nat.le_add_right _ _)
  | claim h1 h2 h3 =>
    intro u hu
    simp only [List.mem_cons] at hu
    rcases hu with rfl | hu
    · exact le_refl _
    · exact ih u hu
  | complete h => simpa using ih
  | fail h => simpa using ih
  | retry h => simpa using ih

/-- Every recorded task start happened no later than the pool's clock. -/
theorem poolStarts_le_now {cfg : PoolCfg} {s : PoolState} (h : PoolReachable cfg s) :
    ∀ u ∈ s.starts, u ≤ s.now := by
  induction h with
  | init => simp [initPool]
  | step hr hstep ih => exact poolStep_starts hstep ih

/-- Filtering with a weaker predicate keeps at least as many elements. -/
theorem filterLength_mono {α : Type} (l : List α) (p q : α → Bool)
    (h : ∀ u ∈ l, p u = true → q u = true) :
    (l.filter p).length ≤ (l.filter q).length := by
  induction l with
  | nil => simp
  | cons a l ih =>
    have ih' := ih (fun u hu hpu => h u (List.mem_cons_of_mem a hu) hpu)
    by_cases hp : p a = true
    · rw [List.filter_cons_of_pos hp, List.filter_cons_of_pos (h a (List.mem_cons_self a l) hp)]
      simpa using ih'
    · rw [List.filter_cons_of_neg (by simpa using hp)]
      cases hq : q a
      · rw [List.filter_cons_of_neg (by simp [hq])]
        exact ih'
      · rw [List.filter_cons_of_pos hq]
        exact le_trans ih' (by simp)

/-- One pool step preserves the sliding-window bound, given that all
recorded starts are at or before the clock. -/
theorem poolStep_window {cfg : PoolCfg} {s s' : PoolState} {max D : Nat}
    (hstep : PoolStep cfg s s') (hl : cfg.limiter = some (max, D))
    (hle : ∀ u ∈ s.starts, u ≤ s.now)
    (ih : ∀ t, countWindow s.starts t D ≤ max) :
    ∀ t, countWindow s'.starts t D ≤ max := by
  cases hstep with
  | enqueue => simpa using ih
  | tick d => simpa using ih
  | complete h => simpa using ih
  | fail h => simpa using ih
  | retry h => simpa using ih
  | claim h1 h2 h3 =>
    intro t
    have hguard : countWindow s.starts s.now D < max := by
      simpa [windowOk, hl] using h3
    simp only [countWindow, List.filter_cons]
    by_cases hc : (decide (s.now ≤ t) && decide (t < s.now + D)) = true
    · rw [if_pos hc]
      simp only [Bool.and_eq_true, decide_eq_true_eq] at hc
      have hmono : countWindow s.starts t D ≤ countWindow s.starts s.now D := by
        apply filterLength_mono
        intro u hu hput
        simp only [Bool.and_eq_true, decide_eq_true_eq] at hput ⊢
        refine ⟨hle u hu, ?_⟩
        omega
      have hgoal : countWindow s.starts t D + 1 ≤ max := by omega
      simpa [List.length_cons, countWindow] using hgoal
    · rw [if_neg hc]
      exact ih t

/-- Sliding-window invariant: in every reachable state of a pool with
limiter `(max, D)`, every window of length `D` contains at most `max`
recorded task starts. -/
theorem poolWindow_le {cfg : PoolCfg} {s : PoolState} {max D : Nat}
    (h : PoolReachable cfg s) (hl : cfg.limiter = some (max, D)) :
    ∀ t, countWindow s.starts t D ≤ max := by
  induction h with
  | init => intro t; simp [initPool, countWindow]
  | step hr hstep ih =>
    exact poolStep_window hstep hl (poolStarts_le_now hr) ih

/-- The only pool step that removes a job from `waiting` is an admitted
claim: it respects the rate-limit guard, activates exactly one job, fails
nothing, and records the start. -/
theorem poolStep_waitingDec {cfg : PoolCfg} {s s' : PoolState}
    (hstep : PoolStep cfg s s') (hw : s'.waiting < s.waiting) :
    windowOk cfg s ∧ s'.active = s.active + 1 ∧ s'.failed = s.failed ∧
    s'.starts = s.now :: s.starts := by
  cases hstep with
  | enqueue => simp only at hw; omega
  | tick d => simp only at hw; omega
  | claim h1 h2 h3 => exact ⟨h3, rfl, rfl, rfl⟩
  | complete h => simp only at hw; omega
  | fail h => simp only at hw; omega
  | retry h => simp only at hw; omega

/-! ## Claim theorems -/

/-- Claim C8: at every moment, at most `concurrency` jobs of one queue are
in the active state simultaneously — 2 for the content-generation pool and
1 for the publishing pool, the values configured in
`src/backend/src/jobs/queue.ts`. -/
theorem c8_active_bounded :
    (∀ s : PoolState, PoolReachable contentPoolCfg s → s.active ≤ 2) ∧
    (∀ s : PoolState, PoolReachable publishPoolCfg s → s.active ≤ 1) :=
  ⟨fun _ h => poolActive_le h, fun _ h => poolActive_le h⟩

/-- Witness for C8 at the concrete initial pool state. -/
theorem c8_active_bounded_witness :
    initPool.active ≤ 2 ∧ initPool.active ≤ 1 :=
  ⟨c8_active_bounded.1 initPool PoolReachable.init,
   c8_active_bounded.2 initPool PoolReachable.init⟩

/-- Claim C9: for the content-generation pool, within any rolling window of
60000 ms no more than 10 task executions start; and the only step that
takes a job out of `waiting` is an admitted start that respects the window
budget and activates the job — jobs beyond the budget stay `waiting` and
are never failed by the limiter. -/
theorem c9_rate_limit :
    (∀ s : PoolState, PoolReachable contentPoolCfg s →
        ∀ t, countWindow s.starts t 60000 ≤ 10) ∧
    (∀ s s' : PoolState, PoolStep contentPoolCfg s s' → s'.waiting < s.waiting →
        countWindow s.starts s.now 60000 < 10 ∧ s'.active = s.active + 1 ∧
        s'.failed = s.failed) := by
  constructor
  · exact fun s h => poolWindow_le h rfl
  · intro s s' hstep hw
    obtain ⟨h3, ha, hf, _⟩ := poolStep_waitingDec hstep hw
    exact ⟨h3, ha, hf⟩

/-- Witness for C9 on a concrete two-step run: enqueue one job, admit it at
time 0; the window bound holds in the reached state and the admitting step
satisfied the budget guard. -/
theorem c9_rate_limit_witness :
    countWindow [0] 0 60000 ≤ 10 ∧ countWindow ([] : List Nat) 0 60000 < 10 := by
  have h0 : PoolReachable contentPoolCfg initPool := PoolReachable.init
  have h1 : PoolReachable contentPoolCfg
      { now := 0, waiting := 1, active := 0, completed := 0, failed := 0, starts := [] } :=
    PoolReachable.step h0 (PoolStep.enqueue initPool)
  have hstep : PoolStep contentPoolCfg
      { now := 0, waiting := 1, active := 0, completed := 0, failed := 0, starts := [] }
      { now := 0, waiting := 0, active := 1, completed := 0, failed := 0, starts := [0] } := by
    have h3 : windowOk contentPoolCfg
        { now := 0, waiting := 1, active := 0, completed := 0, failed := 0, starts := [] } := by
      show countWindow [] 0 60000 < 10
      decide
    exact PoolStep.claim _ (by decide) (by decide) h3
  have h2 : PoolReachable contentPoolCfg
      { now := 0, waiting := 0, active := 1, completed := 0, failed := 0, starts := [0] } :=
    PoolReachable.step h1 hstep
  constructor
  · simpa using c9_rate_limit.1 _ h2 0
  · simpa using (c9_rate_limit.2 _ _ hstep (by decide)).1

/-- Claim C5: for every generation job, failure of any of the three steps
(draft, SEO metadata, FAQ) fails the whole job with that step's error, and
a stored result implies all three steps succeeded and is assembled from
their outputs verbatim — no partial result is ever stored. -/
theorem c5_no_partial_result (env : LLMEnv) (p : GenJobData) :
    (∀ e, generateBlogPost env (genParamsOf p) = .error e →
        contentTask env p = .error e) ∧
    (∀ c e, generateBlogPost env (genParamsOf p) = .ok c →
        generateSEOMetadata env c = .error e → contentTask env p = .error e) ∧
    (∀ c s e, generateBlogPost env (genParamsOf p) = .ok c →
        generateSEOMetadata env c = .ok s → generateFAQSchema env c = .error e →
        contentTask env p = .error e) ∧
    (∀ r, contentTask env p = .ok r →
        ∃ c s f, generateBlogPost env (genParamsOf p) = .ok c ∧
          generateSEOMetadata env c = .ok s ∧ generateFAQSchema env c = .ok f ∧
          r = { contentId := p.contentId, content := c, seo := s, faqs := f,
                topic := p.topic }) := by
  refine ⟨?_, ?_, ?_, ?_⟩
  · intro e hd
    simp [contentTask, hd]
  · intro c e hd hs
    simp [contentTask, hd, hs]
  · intro c s e hd hs hf
    simp [contentTask, hd, hs, hf]
  · intro r h
    unfold contentTask at h
    cases hd : generateBlogPost env (genParamsOf p) with
    | error e => simp [hd] at h
    | ok c =>
      cases hs : generateSEOMetadata env c with
      | error e => simp [hd, hs] at h
      | ok s =>
        cases hf : generateFAQSchema env c with
        | error e => simp [hd, hs, hf] at h
        | ok f =>
          simp only [hd, hs, hf] at h
          injection h with h
          exact ⟨c, s, f, rfl, hs, hf, h.symm⟩

/-- Witness for C5: a failing draft call fails the job with the remote
error; an unparseable SEO response fails it with the parse error. -/
theorem c5_no_partial_result_witness :
    contentTask envDraftFail pGen = .error "rate limited" ∧
    contentTask envBadJson pGen = .error jsonParseFailMsg := by
  constructor
  · exact (c5_no_partial_result envDraftFail pGen).1 "rate limited" rfl
  · exact (c5_no_partial_result envBadJson pGen).2.1 "<p>x</p>" jsonParseFailMsg rfl rfl

/-- Claim C4 (amended): a generation job completes exactly when all three
steps succeed, and its stored result carries the step outputs verbatim —
the code enforces no non-emptiness of `seo.tags` nor any shape of `faqs`. -/
theorem c4_completed_verbatim (env : LLMEnv) (p : GenJobData) (c : String)
    (s f : Json)
    (hd : generateBlogPost env (genParamsOf p) = .ok c)
    (hs : generateSEOMetadata env c = .ok s)
    (hf : generateFAQSchema env c = .ok f) :
    contentTask env p = .ok { contentId := p.contentId, content := c, seo := s,
                              faqs := f, topic := p.topic } := by
  simp [contentTask, hd, hs, hf]

/-- Counterexample for C4 as stated: with null SEO/FAQ responses the job
completes with `seo = \x7b\x7d` (no `tags` at all) and `faqs = []`. -/
theorem c4_counterexample : ¬ generationResultClaim := by
  intro hclaim
  have h := hclaim envDefaulting pGen
    { contentId := "c1", content := "<p>x</p>", seo := Json.obj [],
      faqs := Json.arr [], topic := "AI in Healthcare" } rfl
  exact absurd h.1 (by decide)

/-- Witness for C4's amended theorem on the all-successful oracle. -/
theorem c4_completed_verbatim_witness :
    contentTask envGood pGen = .ok genResultGood :=
  c4_completed_verbatim envGood pGen "<p>d</p>" sampleSeoJson
    (Json.arr [sampleFaqEntry]) rfl rfl rfl

/-- Claim C2 (amended): the SEO step fails only when `JSON.parse` fails on
the response text; a `null` response is silently replaced by the default
text and any valid-JSON value is accepted verbatim with no shape check. -/
theorem c2_seo_parse_behavior (env : LLMEnv) (content : String) :
    (∀ j, env.seoResp content = .ok none → env.parse "\x7b\x7d" = some j →
        generateSEOMetadata env content = .ok j) ∧
    (∀ c j, env.seoResp content = .ok (some c) → c ≠ "" → env.parse c = some j →
        generateSEOMetadata env content = .ok j) ∧
    (∀ c, env.seoResp content = .ok (some c) → c ≠ "" → env.parse c = none →
        generateSEOMetadata env content = .error jsonParseFailMsg) := by
  refine ⟨?_, ?_, ?_⟩
  · intro j hresp hparse
    simp [generateSEOMetadata, hresp, strOrDefault, hparse]
  · intro c j hresp hc hparse
    simp [generateSEOMetadata, hresp, strOrDefault, hc, hparse]
  · intro c hresp hc hparse
    simp [generateSEOMetadata, hresp, strOrDefault, hc, hparse]

/-- Counterexample for C2 as stated: a null SEO response is replaced by the
default and the step succeeds with the shapeless value `\x7b\x7d`. -/
theorem c2_counterexample : ¬ seoStrictParseClaim := by
  intro hclaim
  have h := hclaim envDefaulting "x" (Json.obj []) rfl
  exact absurd h (by decide)

/-- Witness for C2's amended theorem: the default-substitution case, the
shapeless-acceptance case, and the invalid-JSON failure case, each on a
concrete oracle. -/
theorem c2_seo_parse_behavior_witness :
    generateSEOMetadata envDefaulting "x" = .ok (Json.obj []) ∧
    generateSEOMetadata envGood "x" = .ok sampleSeoJson ∧
    generateSEOMetadata envBadJson "x" = .error jsonParseFailMsg := by
  refine ⟨?_, ?_, ?_⟩
  · exact (c2_seo_parse_behavior envDefaulting "x").1 (Json.obj []) rfl rfl
  · exact (c2_seo_parse_behavior envGood "x").2.1 sampleSeoText sampleSeoJson rfl
      (by decide) rfl
  · exact (c2_seo_parse_behavior envBadJson "x").2.2 "not json" rfl (by decide) rfl

/-- Claim C1 (amended): when the create call succeeds and the scheduling
call fails, the job ends failed with the scheduling call's error as its
`failureReason`, verbatim; the already-created post's id is visible in the
call trace but the code does not embed it in the failure reason. -/
theorem c1_schedule_failure (env : WpEnv) (now : String) (p : PublishJobData)
    (post : WpPost) (e : String)
    (hsched : truthyOpt p.scheduleDate = true)
    (hcreate : env.createPost (createArgsOf p) = .ok post)
    (hfail : env.schedulePost post.id (p.scheduleDate.getD "") = .error e) :
    finalize (publishTask env now p).1 = JobFinal.failed e ∧
    (publishTask env now p).2 =
      [WpCall.create (createArgsOf p),
       WpCall.schedule post.id (p.scheduleDate.getD "")] := by
  constructor <;> simp [publishTask, hcreate, hsched, hfail, finalize]

/-- Counterexample for C1 as stated: create returns post 42, scheduling
fails with a bare HTTP error; the failure reason does not contain "42". -/
theorem c1_counterexample : ¬ scheduleFailureClaim := by
  intro hclaim
  obtain ⟨eMsg, h1, h2⟩ := hclaim envSchedFail "now" pSched postFortyTwo
    "Request failed with status code 500" (by decide) rfl rfl
  have hcomp : (publishTask envSchedFail "now" pSched).1 =
      .error "Request failed with status code 500" := rfl
  rw [hcomp] at h1
  injection h1 with h1
  rw [← h1] at h2
  exact absurd h2 (by decide)

/-- Witness for C1's amended theorem on the concrete failing-schedule
oracle. -/
theorem c1_schedule_failure_witness :
    finalize (publishTask envSchedFail "2024-01-01T00:00:00Z" pSched).1 =
      JobFinal.failed "Request failed with status code 500" ∧
    (publishTask envSchedFail "2024-01-01T00:00:00Z" pSched).2 =
      [WpCall.create (createArgsOf pSched),
       WpCall.schedule postFortyTwo.id "2024-12-25T10:00:00Z"] :=
  c1_schedule_failure envSchedFail "2024-01-01T00:00:00Z" pSched postFortyTwo
    "Request failed with status code 500" (by decide) rfl rfl

/-- Claim C6: a publish job with no `scheduleDate` whose create call
succeeds makes exactly one create call and no scheduling call, and its
result is the `\x7bwordpressId, wordpressUrl, publishedAt\x7d` outcome
built from the created post and the current timestamp. -/
theorem c6_publish_no_schedule (env : WpEnv) (now : String) (p : PublishJobData)
    (post : WpPost)
    (hnone : p.scheduleDate = none)
    (hcreate : env.createPost (createArgsOf p) = .ok post) :
    publishTask env now p =
      (.ok { wordpressId := post.id, wordpressUrl := post.link,
             publishedAt := now },
       [WpCall.create (createArgsOf p)]) := by
  simp [publishTask, hcreate, hnone, truthyOpt]

/-- Witness for C6 on the concrete all-successful WordPress oracle. -/
theorem c6_publish_no_schedule_witness :
    publishTask envCreateOk "2024-01-01T00:00:00Z" pNoSched =
      (.ok { wordpressId := 42, wordpressUrl := "https://blog.example/?p=42",
             publishedAt := "2024-01-01T00:00:00Z" },
       [WpCall.create (createArgsOf pNoSched)]) :=
  c6_publish_no_schedule envCreateOk "2024-01-01T00:00:00Z" pNoSched
    postFortyTwo rfl rfl

/-- Claim C3 (amended): the publish route validates only the presence and
truthiness of `content` and `seo`; any such body is enqueued with
`status || 'draft'` passed through verbatim — a status outside the two
literals is not rejected. -/
theorem c3_route_enqueues (b : PublishBody) (c : String) (o : SeoIn)
    (hc : b.content = some c) (hcne : c ≠ "") (hs : b.seo = some o) :
    publishRoute b = .enqueued { content := c, seo := o,
                                 status := some (jsOrStr b.status "draft"),
                                 scheduleDate := b.scheduleDate } := by
  simp [publishRoute, hc, hs, hcne]

/-- Counterexample for C3 as stated: `status = "banana"` passes validation
and is enqueued. -/
theorem c3_counterexample : ¬ statusValidationClaim := by
  intro hclaim
  obtain ⟨msg, hmsg⟩ := hclaim pubBodyBanana "banana" rfl (by decide) (by decide)
  have hcomp : publishRoute pubBodyBanana =
      .enqueued { content := "<p>b</p>", seo := { title := "T", description := "D" },
                  status := some "banana", scheduleDate := none } := rfl
  rw [hcomp] at hmsg
  exact PublishRouteResult.noConfusion hmsg

/-- Witness for C3's amended theorem on the concrete banana-status body. -/
theorem c3_route_enqueues_witness :
    publishRoute pubBodyBanana =
      .enqueued { content := "<p>b</p>", seo := { title := "T", description := "D" },
                  status := some "banana", scheduleDate := none } :=
  c3_route_enqueues pubBodyBanana "<p>b</p>" { title := "T", description := "D" }
    rfl (by decide) rfl

/-- Claim C7 (amended): both job queries answer `NotFound` exactly on
unknown ids; on a hit, the content query returns the five-field
`\x7bjobId, state, progress, result, failedReason\x7d` object while the
publish query returns the same object without `progress`. -/
theorem c7_query_shapes (store : String → Option JobRec) (jobId : String) :
    (contentJobQuery store jobId = .notFound ↔ store jobId = none) ∧
    (publishJobQuery store jobId = .notFound ↔ store jobId = none) ∧
    (∀ job, store jobId = some job →
        contentJobQuery store jobId = .found
          [("jobId", Json.str job.id), ("state", Json.str job.state),
           ("progress", job.progress), ("result", job.returnvalue),
           ("failedReason", job.failedReason)] ∧
        publishJobQuery store jobId = .found
          [("jobId", Json.str job.id), ("state", Json.str job.state),
           ("result", job.returnvalue), ("failedReason", job.failedReason)]) := by
  refine ⟨?_, ?_, ?_⟩
  · cases hstore : store jobId <;> simp [contentJobQuery, hstore]
  · cases hstore : store jobId <;> simp [publishJobQuery, hstore]
  · intro job hstore
    exact ⟨by simp [contentJobQuery, hstore], by simp [publishJobQuery, hstore]⟩

/-- Counterexample for C7 as stated: the publish query's response for a
stored job has no `progress` field, so its field list differs from the
stable five-field shape. -/
theorem c7_counterexample : ¬ queryShapeClaim := by
  intro hclaim
  have h := (hclaim storeOne "j1").2.2.2
    [("jobId", Json.str "j1"), ("state", Json.str "completed"),
     ("result", Json.str "r"), ("failedReason", Json.null)] rfl
  exact absurd h (by decide)

/-- Witness for C7's amended theorem on the concrete one-job store. -/
theorem c7_query_shapes_witness :
    contentJobQuery storeOne "j1" = .found
      [("jobId", Json.str "j1"), ("state", Json.str "completed"),
       ("progress", Json.num 100), ("result", Json.str "r"),
       ("failedReason", Json.null)] ∧
    publishJobQuery storeOne "j1" = .found
      [("jobId", Json.str "j1"), ("state", Json.str "completed"),
       ("result", Json.str "r"), ("failedReason", Json.null)] :=
  (c7_query_shapes storeOne "j1").2.2 jobRecOne rfl

/-- Claim C10: the generation enqueue endpoint validates only by
truthiness — empty `topic` or `wordCount = 0` are rejected as missing
fields; a non-numeric `wordCount` string such as "abc" is accepted and
enqueued with `wordCount = NaN` after `parseInt`; and `keywords` is never
checked to be a sequence of strings (any truthy value, e.g. the number 5,
is enqueued). -/
theorem c10_generate_validation (cid : String) (b : GenBody) :
    (b.topic = JsVal.str "" → generateRoute cid b =
        .badRequest "Missing required fields: topic, keywords, wordCount") ∧
    (b.wordCount = JsVal.num 0 → generateRoute cid b =
        .badRequest "Missing required fields: topic, keywords, wordCount") ∧
    (truthy b.topic = true → truthy b.keywords = true →
        b.wordCount = JsVal.str "abc" →
        generateRoute cid b =
          .enqueued { contentId := cid, topic := b.topic,
                      keywords := b.keywords, wordCount := JsVal.nan }) ∧
    (truthy b.topic = true → truthy b.wordCount = true →
        b.keywords = JsVal.num 5 →
        generateRoute cid b =
          .enqueued { contentId := cid, topic := b.topic,
                      keywords := b.keywords,
                      wordCount := jsParseInt b.wordCount }) := by
  have hnan : jsParseInt (JsVal.str "abc") = JsVal.nan := rfl
  have habc : truthy (JsVal.str "abc") = true := rfl
  have hfive : truthy (JsVal.num 5) = true := rfl
  refine ⟨?_, ?_, ?_, ?_⟩
  · intro h
    simp [generateRoute, h, truthy]
  · intro h
    simp [generateRoute, h, truthy]
  · intro ht hk hw
    simp [generateRoute, ht, hk, hw, habc, hnan]
  · intro ht hw hk
    simp [generateRoute, ht, hw, hk, hfive]

/-- Witness for C10 on four concrete request bodies. -/
theorem c10_generate_validation_witness :
    generateRoute "cid" { topic := .str "", keywords := .arr [.str "k"],
                          wordCount := .num 1500 } =
      .badRequest "Missing required fields: topic, keywords, wordCount" ∧
    generateRoute "cid" { topic := .str "AI", keywords := .arr [.str "k"],
                          wordCount := .num 0 } =
      .badRequest "Missing required fields: topic, keywords, wordCount" ∧
    generateRoute "cid" { topic := .str "AI", keywords := .arr [.str "k"],
                          wordCount := .str "abc" } =
      .enqueued { contentId := "cid", topic := .str "AI",
                  keywords := .arr [.str "k"], wordCount := .nan } ∧
    generateRoute "cid" { topic := .str "AI", keywords := .num 5,
                          wordCount := .num 1500 } =
      .enqueued { contentId := "cid", topic := .str "AI", keywords := .num 5,
                  wordCount := .num 1500 } := by
  refine ⟨?_, ?_, ?_, ?_⟩
  · exact (c10_generate_validation "cid" _).1 rfl
  · exact (c10_generate_validation "cid" _).2.1 rfl
  · exact (c10_generate_validation "cid" _).2.2.1 rfl rfl rfl
  · exact (c10_generate_validation "cid" _).2.2.2 rfl rfl rfl

end AICP
